import Mathlib

/-!
Shallow embedding of the `mrkrabz` terminal client core (src/tui.rs and the
dispatch loop of src/main.rs).

The `Repository` type of the `octocrab` crate is external; it is modelled here
by the fields the core reads.  The `tui_input::Input` editor is external as
well; the core only reads its value, resets it, and forwards unhandled key
events to it, so it is modelled as a plain string (the catch-all branch appends
a typed character).  `ratatui::ListState` is modelled by the one field the core
uses, the optional selected index.  The `u16` scroll offset is modelled as a
`Nat` with the saturating arithmetic made explicit (cap `65535` on increment,
floor `0` on decrement).
-/

set_option autoImplicit false

/-- Fields of `octocrab::models::Repository` read by the core. -/
structure Repository where
  full_name : Option String
  stargazers_count : Option Nat
  forks_count : Option Nat
  language : Option String
  description : Option String
  size : Option Nat
  html_url : Option String
deriving DecidableEq

/-- The part of `ratatui::widgets::ListState` used by the core. -/
structure ListState where
  selected : Option Nat
deriving DecidableEq

def ListState.default : ListState := { selected := none }

/-- `ListState::select(index)`. -/
def ListState.select (s : ListState) (index : Option Nat) : ListState :=
  { s with selected := index }

/-- `App` from src/tui.rs lines 23-36. -/
structure App where
  input : String
  results : List Repository
  list_state : ListState
  searching : Bool
  error_message : Option String
  total_count : Option Nat
  file_counts : List (String × String)
  counting_files : Bool
  details_scroll : Nat
  repo_size_filter : Option String
  cloning : Bool
  clone_status : Option String
deriving DecidableEq

/-- `App::new` (tui.rs lines 39-54). -/
def App.new : App :=
  { input := ""
    results := []
    list_state := ListState.default
    searching := false
    error_message := none
    total_count := none
    file_counts := []
    counting_files := false
    details_scroll := 0
    repo_size_filter := none
    cloning := false
    clone_status := none }

/-- `App::set_size_filter` (tui.rs lines 57-59). -/
def App.set_size_filter (app : App) (filter : Option String) : App :=
  { app with repo_size_filter := filter }

/-- `App::set_results` (tui.rs lines 62-69): stores the new results and total,
selects index 0 when the new results are non-empty, clears the searching
flag. -/
def App.set_results (app : App) (results : List Repository) (total_count : Nat) : App :=
  let app := { app with results := results, total_count := some total_count }
  let app :=
    if ¬ app.results.isEmpty then
      { app with list_state := app.list_state.select (some 0) }
    else
      app
  { app with searching := false }

/-- `App::set_error` (tui.rs lines 72-75). -/
def App.set_error (app : App) (error : String) : App :=
  { app with error_message := some error, searching := false }

/-- `App::next` (tui.rs lines 78-93). -/
def App.next (app : App) : App :=
  if app.results.isEmpty then
    app
  else
    let i :=
      match app.list_state.selected with
      | some i => if i ≥ app.results.length - 1 then 0 else i + 1
      | none => 0
    { app with list_state := app.list_state.select (some i) }

/-- `App::previous` (tui.rs lines 96-111). -/
def App.previous (app : App) : App :=
  if app.results.isEmpty then
    app
  else
    let i :=
      match app.list_state.selected with
      | some i => if i = 0 then app.results.length - 1 else i - 1
      | none => 0
    { app with list_state := app.list_state.select (some i) }

/-- `App::get_selected_repo` (tui.rs lines 114-116):
`self.list_state.selected().and_then(|i| self.results.get(i))`. -/
def App.get_selected_repo (app : App) : Option Repository :=
  app.list_state.selected.bind (fun i => app.results.get? i)

/-- `App::scroll_details_down` (tui.rs lines 119-121): `u16::saturating_add`. -/
def App.scroll_details_down (app : App) : App :=
  { app with details_scroll := min (app.details_scroll + 1) 65535 }

/-- `App::scroll_details_up` (tui.rs lines 124-126): `u16::saturating_sub`
(`Nat` subtraction already saturates at 0). -/
def App.scroll_details_up (app : App) : App :=
  { app with details_scroll := app.details_scroll - 1 }

/-- `App::reset_details_scroll` (tui.rs lines 129-131). -/
def App.reset_details_scroll (app : App) : App :=
  { app with details_scroll := 0 }

/-- Key codes of the events the `run_tui` match distinguishes. -/
inductive KeyCode where
  | esc
  | down
  | up
  | left
  | right
  | enter
  | char (c : Char)
deriving DecidableEq

/-- A key event: code plus the two modifier bits `run_tui` inspects. -/
structure KeyEvent where
  code : KeyCode
  ctrl : Bool
  alt : Bool
deriving DecidableEq

/-- Outcome of one key event inside the `run_tui` loop (tui.rs lines 140-227):
keep looping, return `Ok(None)` (quit), or return `Ok(Some action))`. -/
inductive TuiStep where
  | cont
  | quit
  | action (a : String)
deriving DecidableEq

/-- The guard `!results.is_empty() && list_state.selected().is_some()` followed
by `get_selected_repo` / `html_url`, shared by the Alt+O, Alt+F and Alt+G arms
of `run_tui`. -/
def selectedUrlAction (app : App) (tag : String → String) : TuiStep :=
  if ¬ app.results.isEmpty ∧ app.list_state.selected.isSome then
    match app.get_selected_repo with
    | some repo =>
      match repo.html_url with
      | some url => TuiStep.action (tag url)
      | none => TuiStep.cont
    | none => TuiStep.cont
  else
    TuiStep.cont

/-- One iteration of the key `match` in `run_tui` (tui.rs lines 146-224),
returning the updated state and what the loop does next. -/
def handleKey (app : App) (key : KeyEvent) : App × TuiStep :=
  if key.code = KeyCode.char 'c' ∧ key.ctrl then
    (app, TuiStep.quit)
  else
    match key.code with
    | KeyCode.esc => (app, TuiStep.quit)
    | KeyCode.down => (app.next.reset_details_scroll, TuiStep.cont)
    | KeyCode.up => (app.previous.reset_details_scroll, TuiStep.cont)
    | KeyCode.left => (app.scroll_details_up, TuiStep.cont)
    | KeyCode.right => (app.scroll_details_down, TuiStep.cont)
    | KeyCode.enter =>
      if app.input ≠ "" then (app, TuiStep.action app.input) else (app, TuiStep.cont)
    | KeyCode.char c =>
      if c = 'o' ∧ key.alt then
        (app, selectedUrlAction app (fun url => url))
      else if c = 'c' ∧ key.alt then
        ({ app with input := "" }, TuiStep.cont)
      else if c = 'f' ∧ key.alt then
        (app, selectedUrlAction app (fun url => "FILECOUNT:" ++ url))
      else if c = '1' then
        (app.set_size_filter (some "small"), TuiStep.cont)
      else if c = '2' then
        (app.set_size_filter (some "medium"), TuiStep.cont)
      else if c = '3' then
        (app.set_size_filter (some "large"), TuiStep.cont)
      else if c = '0' then
        (app.set_size_filter none, TuiStep.cont)
      else if c = 'g' ∧ key.alt then
        (app, selectedUrlAction app (fun url => "CLONE:" ++ url))
      else
        ({ app with input := app.input.push c }, TuiStep.cont)

/-- The CLI arguments consulted by `perform_search_with_filter`
(main.rs lines 23-34, restricted to the fields the query builder reads). -/
structure Args where
  language : Option String
  stars : Option Nat
  repo_size : Option String
deriving DecidableEq

/-- `str::to_lowercase` as used on the size-category strings (ASCII model,
mapping each character through `Char.toLower`). -/
def strToLower (s : String) : String :=
  ⟨s.data.map Char.toLower⟩

/-- Query construction of `perform_search_with_filter` (main.rs lines 229-256):
everything up to the network call, returning the built query string or the
invalid-size error. -/
def buildSearchQuery (query : String) (args : Args) (size_filter_override : Option String) :
    Except String String :=
  let search_query := query
  let search_query :=
    match args.language with
    | some lang => search_query ++ (" language:" ++ lang)
    | none => search_query
  let search_query :=
    match args.stars with
    | some min_stars => search_query ++ (" stars:>=" ++ toString min_stars)
    | none => search_query
  let size_category :=
    match size_filter_override with
    | some v => some v
    | none => args.repo_size
  match size_category with
  | some size_cat =>
    match strToLower size_cat with
    | "small" => Except.ok (search_query ++ (" " ++ "size:<25000"))
    | "medium" => Except.ok (search_query ++ (" " ++ "size:25000..100000"))
    | "large" => Except.ok (search_query ++ (" " ++ "size:>100000"))
    | _ =>
      Except.error ("Invalid repo_size \x27" ++ size_cat ++ "\x27. Use: small, medium, or large")
  | none => Except.ok search_query

/-- `HashMap::insert` on the association-list model of `file_counts`:
replaces the entry for an existing key, otherwise appends. -/
def hmInsert (m : List (String × String)) (k v : String) : List (String × String) :=
  match m with
  | [] => [(k, v)]
  | (k', v') :: rest => if k' = k then (k, v) :: rest else (k', v') :: hmInsert rest k v

/-- `HashMap::get` on the association-list model. -/
def hmGet (m : List (String × String)) (k : String) : Option String :=
  match m with
  | [] => none
  | (k', v') :: rest => if k' = k then some v' else hmGet rest k

/-- Start of the CLONE branch of `run_interactive_mode` (main.rs lines 106-107):
`app.cloning = true; app.clone_status = None;`. -/
def cloneStart (app : App) : App :=
  { app with cloning := true, clone_status := none }

/-- The message stored by the CLONE branch (main.rs lines 111-118). -/
def cloneMessage (res : Except String String) : String :=
  match res with
  | Except.ok path => "Cloned to " ++ path
  | Except.error e => "Clone failed: " ++ e

/-- Completion of the CLONE branch (main.rs lines 111-120): store the outcome
message and clear the flag. -/
def cloneFinish (app : App) (res : Except String String) : App :=
  { app with clone_status := some (cloneMessage res), cloning := false }

/-- The whole CLONE branch, with the collaborator outcome passed in. -/
def dispatchClone (app : App) (res : Except String String) : App :=
  cloneFinish (cloneStart app) res

/-- Start of the FILECOUNT branch (main.rs line 125): `app.counting_files = true;`. -/
def filecountStart (app : App) : App :=
  { app with counting_files := true }

/-- Completion of the FILECOUNT branch (main.rs lines 130-138): cache the
success text or `format!("Error: {}", e)` under the URL, clear the flag. -/
def filecountFinish (app : App) (url : String) (res : Except String String) : App :=
  match res with
  | Except.ok count =>
    { app with file_counts := hmInsert app.file_counts url count, counting_files := false }
  | Except.error e =>
    { app with file_counts := hmInsert app.file_counts url ("Error: " ++ e),
               counting_files := false }

/-- The whole FILECOUNT branch, with the collaborator outcome passed in. -/
def dispatchFileCount (app : App) (url : String) (res : Except String String) : App :=
  filecountFinish (filecountStart app) url res

/-- Start of the search branch (main.rs lines 148-149). -/
def searchStart (app : App) : App :=
  { app with searching := true, error_message := none }

/-- Completion of the search branch (main.rs lines 154-161). -/
def searchFinish (app : App) (res : Except String (List Repository × Nat)) : App :=
  match res with
  | Except.ok (results, total) => app.set_results results total
  | Except.error e => app.set_error e

/-- A concrete repository value used for witnesses and counterexamples. -/
def repoA : Repository :=
  { full_name := some "a/b"
    stargazers_count := some 1
    forks_count := some 0
    language := some "Rust"
    description := none
    size := some 10
    html_url := some "https://github.com/a/b" }

/-- A state whose list cursor still points at an old result. -/
def staleApp : App :=
  { App.new with results := [repoA], list_state := { selected := some 0 } }

/-- Three results with the last one selected. -/
def app3 : App :=
  { App.new with results := [repoA, repoA, repoA], list_state := { selected := some 2 } }

/-- A scrolled-down detail panel before any selection exists. -/
def app4 : App :=
  { App.new with details_scroll := 7 }

/-- Non-empty results with no selection. -/
def app9 : App :=
  { App.new with results := [repoA] }

/-- One result, selected. -/
def app10 : App :=
  { App.new with results := [repoA], list_state := { selected := some 0 } }

theorem hmGet_hmInsert (m : List (String × String)) (k v : String) :
    hmGet (hmInsert m k v) k = some v := by
  induction m with
  | nil => simp [hmInsert, hmGet]
  | cons p rest ih =>
    obtain ⟨k', v'⟩ := p
    by_cases h : k' = k <;> simp [hmInsert, hmGet, h, ih]

theorem hmInsert_hmInsert_length (m : List (String × String)) (k v w : String) :
    (hmInsert (hmInsert m k v) k w).length = (hmInsert m k v).length := by
  induction m with
  | nil => simp [hmInsert]
  | cons p rest ih =>
    obtain ⟨k', v'⟩ := p
    by_cases h : k' = k <;> simp [hmInsert, h, ih]

/-- C1, counterexample: with a prior selection, `set_results` with empty new
results leaves the stale selected index in place instead of clearing it to
`None`. -/
theorem c1_counterexample :
    ¬ ((staleApp.set_results [] 0).list_state.selected = none) := by
  decide

/-- C1, amended: `set_results` selects index 0 when the new results are
non-empty, and leaves the previous selection unchanged (possibly stale) when
the new results are empty. -/
theorem c1_set_results_selection (app : App) (results : List Repository) (tc : Nat) :
    (app.set_results results tc).list_state.selected =
      if results.isEmpty then app.list_state.selected else some 0 := by
  cases results <;> simp [App.set_results, ListState.select]

/-- C2: with a valid selection `some i` over `n` results, Down-navigation
(`next`) moves the selection to `i + 1` with wraparound from `n - 1` to `0`,
Up-navigation (`previous`) moves it to `i - 1` with wraparound from `0` to
`n - 1`; with empty results both are no-ops on the whole state. -/
theorem c2_navigation_wraparound (app : App) :
    (∀ i, app.list_state.selected = some i → i < app.results.length →
      app.next.list_state.selected =
        some (if i = app.results.length - 1 then 0 else i + 1) ∧
      app.previous.list_state.selected =
        some (if i = 0 then app.results.length - 1 else i - 1)) ∧
    (app.results = [] → app.next = app ∧ app.previous = app) := by
  constructor
  · intro i hsel hlt
    have hne : app.results.isEmpty = false := by
      cases h : app.results with
      | nil => rw [h] at hlt; simp at hlt
      | cons a l => simp
    constructor
    · simp only [App.next, hne, hsel, ListState.select]
      simp only [Bool.false_eq_true, if_false]
      congr 1
      by_cases h : i = app.results.length - 1
      · rw [if_pos h, if_pos (by omega)]
      · rw [if_neg (by omega : ¬ i ≥ app.results.length - 1), if_neg h]
    · simp only [App.previous, hne, hsel, ListState.select]
      simp only [Bool.false_eq_true, if_false]
  · intro h
    constructor <;> simp [App.next, App.previous, h]

/-- C2 witness: three results, last selected: Down wraps to 0, Up steps to 1. -/
theorem c2_navigation_wraparound_witness :
    app3.next.list_state.selected = some 0 ∧
    app3.previous.list_state.selected = some 1 := by
  have h := (c2_navigation_wraparound app3).1 2 rfl (by decide)
  exact ⟨by simpa using h.1, by simpa using h.2⟩

/-- C3: the Left-key scroll operation is a saturating decrement: it maps
`details_scroll` to `details_scroll - 1` in `Nat` (floor 0), and iterating it
any number of times from a state with `details_scroll = 0` leaves 0. -/
theorem c3_scroll_up_saturates (app : App) (k : Nat) :
    app.scroll_details_up.details_scroll = app.details_scroll - 1 ∧
    (App.scroll_details_up^[k] { app with details_scroll := 0 }).details_scroll = 0 := by
  refine ⟨rfl, ?_⟩
  induction k with
  | zero => rfl
  | succ n ih =>
    rw [Function.iterate_succ_apply']
    simp [App.scroll_details_up, ih]

/-- C4, counterexample: `set_results` changes the selection (from `None` to
`Some 0`) without resetting `details_scroll` to 0 in the same step. -/
theorem c4_counterexample :
    (app4.set_results [repoA] 1).list_state.selected ≠ app4.list_state.selected ∧
    (app4.set_results [repoA] 1).details_scroll ≠ 0 := by
  decide

/-- C4, amended: the Down/Up key handlers of the event loop always reset
`details_scroll` to 0 when they change the selection (indeed they reset it
unconditionally); `set_results`, however, changes the selection without
touching `details_scroll`. -/
theorem c4_navigation_resets_scroll :
    (∀ (app : App) (ctrl alt : Bool),
      (handleKey app { code := KeyCode.down, ctrl := ctrl, alt := alt }).1.details_scroll = 0 ∧
      (handleKey app { code := KeyCode.up, ctrl := ctrl, alt := alt }).1.details_scroll = 0) ∧
    (∀ (app : App) (rs : List Repository) (tc : Nat),
      (app.set_results rs tc).details_scroll = app.details_scroll) := by
  constructor
  · intro app ctrl alt
    exact ⟨rfl, rfl⟩
  · intro app rs tc
    cases rs <;> rfl

/-- C5: the size filter maps to the backend query fragment exactly as
Small → `size:<25000`, Medium → `size:25000..100000`, Large → `size:>100000`,
and no filter contributes no fragment; the digit keys 1/2/3 set the filter to
small/medium/large and 0 clears it, each continuing the loop with no action. -/
theorem c5_size_filter_mapping (q : String) (app : App) (ctrl alt : Bool) :
    buildSearchQuery q { language := none, stars := none, repo_size := none } (some "small") =
      Except.ok (q ++ " size:<25000") ∧
    buildSearchQuery q { language := none, stars := none, repo_size := none } (some "medium") =
      Except.ok (q ++ " size:25000..100000") ∧
    buildSearchQuery q { language := none, stars := none, repo_size := none } (some "large") =
      Except.ok (q ++ " size:>100000") ∧
    buildSearchQuery q { language := none, stars := none, repo_size := none } none =
      Except.ok q ∧
    handleKey app { code := KeyCode.char '1', ctrl := ctrl, alt := alt } =
      (app.set_size_filter (some "small"), TuiStep.cont) ∧
    handleKey app { code := KeyCode.char '2', ctrl := ctrl, alt := alt } =
      (app.set_size_filter (some "medium"), TuiStep.cont) ∧
    handleKey app { code := KeyCode.char '3', ctrl := ctrl, alt := alt } =
      (app.set_size_filter (some "large"), TuiStep.cont) ∧
    handleKey app { code := KeyCode.char '0', ctrl := ctrl, alt := alt } =
      (app.set_size_filter none, TuiStep.cont) := by
  refine ⟨rfl, rfl, rfl, rfl, rfl, rfl, rfl, rfl⟩

/-- C6: `set_error` stores the message in `error_message` and leaves the
results, the selection, and the file-count cache unchanged. -/
theorem c6_set_error_frame (app : App) (e : String) :
    (app.set_error e).error_message = some e ∧
    (app.set_error e).results = app.results ∧
    (app.set_error e).list_state = app.list_state ∧
    (app.set_error e).file_counts = app.file_counts :=
  ⟨rfl, rfl, rfl, rfl⟩

/-- C7: dispatching a file-count request whose collaborator fails with message
`m` caches `"Error: " ++ m` under the URL and ends with `counting_files`
false; a repeated request for the same URL overwrites the cached entry (the
cache does not grow). -/
theorem c7_filecount_error_cached (app : App) (url m : String)
    (res res' : Except String String) :
    hmGet (dispatchFileCount app url (Except.error m)).file_counts url =
      some ("Error: " ++ m) ∧
    (dispatchFileCount app url (Except.error m)).counting_files = false ∧
    (dispatchFileCount (dispatchFileCount app url res) url res').file_counts.length =
      (dispatchFileCount app url res).file_counts.length := by
  refine ⟨hmGet_hmInsert _ _ _, rfl, ?_⟩
  cases res <;> cases res' <;>
    simp only [dispatchFileCount, filecountFinish, filecountStart] <;>
    exact hmInsert_hmInsert_length _ _ _ _

/-- C8: a clone dispatch clears `clone_status` and raises `cloning` at the
start; at completion `cloning` is false again and `clone_status` holds the new
outcome message (success path or failure reason), overwriting any prior
message since this holds for every starting state. -/
theorem c8_clone_status_lifecycle (app : App) (res : Except String String) :
    (cloneStart app).cloning = true ∧
    (cloneStart app).clone_status = none ∧
    (dispatchClone app res).cloning = false ∧
    (dispatchClone app res).clone_status = some (cloneMessage res) ∧
    App.new.cloning = false :=
  ⟨rfl, rfl, rfl, rfl, rfl⟩

/-- C9: with non-empty results and no current selection, both `next` and
`previous` select index 0. -/
theorem c9_no_selection_selects_first (app : App)
    (hne : app.results ≠ []) (hsel : app.list_state.selected = none) :
    app.next.list_state.selected = some 0 ∧
    app.previous.list_state.selected = some 0 := by
  have he : app.results.isEmpty = false := by
    cases h : app.results with
    | nil => exact absurd h hne
    | cons a l => simp
  constructor <;>
    simp [App.next, App.previous, he, hsel, ListState.select]

/-- C9 witness: one result, nothing selected: both directions select 0. -/
theorem c9_no_selection_selects_first_witness :
    app9.next.list_state.selected = some 0 ∧
    app9.previous.list_state.selected = some 0 :=
  c9_no_selection_selects_first app9 (List.cons_ne_nil _ _) rfl

/-- C10: `get_selected_repo` is total: it returns `none` when nothing is
selected or the selected index is out of bounds, and the repository at the
selected index otherwise. -/
theorem c10_get_selected_repo_total (app : App) :
    (app.list_state.selected = none → app.get_selected_repo = none) ∧
    (∀ i, app.list_state.selected = some i →
      (app.results.length ≤ i → app.get_selected_repo = none) ∧
      (∀ h : i < app.results.length,
        app.get_selected_repo = some (app.results.get ⟨i, h⟩))) := by
  constructor
  · intro h
    simp [App.get_selected_repo, h]
  · intro i hi
    constructor
    · intro hle
      have hnone : app.results.get? i = none := List.get?_eq_none.mpr hle
      simp only [App.get_selected_repo, hi, Option.some_bind]
      exact hnone
    · intro h
      simp [App.get_selected_repo, hi, List.get?_eq_get h]

/-- C10 witness: one result selected at index 0: the repository is returned. -/
theorem c10_get_selected_repo_total_witness :
    app10.get_selected_repo = some repoA := by
  have h := ((c10_get_selected_repo_total app10).2 0 rfl).2 (by decide)
  simpa using h
